import Mathlib

/-!
Verification development for the Pinterest MCP server's OAuth 2.0 token
lifecycle subsystem (`src/auth.ts`).

The embedding below translates the authentication subsystem into pure Lean
functions.  Effects are made explicit:

* The process environment is a record of the one variable the subsystem
  reads on the token-serving path (`PINTEREST_ACCESS_TOKEN`).
* The on-disk credential file is a value of `FileContent`: missing or
  unreadable, present but malformed JSON, or well-formed JSON parsing to a
  `StoredTokens` record.  (`JSON.stringify`/`JSON.parse` round-trips the
  string and number fields of a record exactly, so a file written by
  `saveTokens` is modelled as `FileContent.record t`.)
* Timestamps are `Int` milliseconds since the epoch (`Date.now()`).
* The single network fetch of the refresh path is replaced by an oracle
  `RefreshOutcome` describing what the authorization server answered; the
  functions additionally report how many fetches they performed and which
  records they persisted, so "no network call" and "no store write" are
  provable statements.
-/

namespace PinterestAuth

/-- `StoredTokens` from `src/types.ts`: the persisted credential record.
Timestamps are Unix milliseconds. -/
structure StoredTokens where
  access_token : String
  refresh_token : String
  expires_at : Int
  refresh_token_expires_at : Int
  scope : String
deriving Repr, DecidableEq

/-- The fields of `OAuthTokenResponse` (from `src/types.ts`) that the refresh
path of `src/auth.ts` reads.  Although the TypeScript interface declares all
fields required, `refreshAccessToken` guards `refresh_token`, `scope` (with
`??`) and `refresh_token_expires_at` (with truthiness) against absence, so
they are embedded as `Option`s; `none` models a JSON `null`/omitted field. -/
structure OAuthTokenResponse where
  access_token : String
  refresh_token : Option String
  expires_in : Int
  refresh_token_expires_at : Option Int
  scope : Option String
deriving Repr, DecidableEq

/-- The slice of `process.env` the token-serving path reads:
`PINTEREST_ACCESS_TOKEN`.  `none` models an unset variable. -/
structure Env where
  pinterest_access_token : Option String
deriving Repr, DecidableEq

/-- JavaScript truthiness of the environment token: both `loadTokens` and
`getValidAccessToken` use `if (envToken)`, under which an unset variable and
the empty string behave the same.  Returns the token only when it is set and
non-empty. -/
def Env.staticToken (env : Env) : Option String :=
  match env.pinterest_access_token with
  | none => none
  | some s => if s = "" then none else some s

/-- `TOKEN_EXPIRY_BUFFER_MS` from `src/auth.ts` line 21. -/
def TOKEN_EXPIRY_BUFFER_MS : Int := 60000

/-- The fixed scope string `loadTokens` synthesizes for a static token
(`src/auth.ts` line 62). -/
def staticTokenScope : String :=
  "pins:read,boards:read,user_accounts:read,ads:read,catalogs:read"

/-- The observable content of `~/.mcp-credentials/pinterest-tokens.json`:
absent/unreadable, present but not valid JSON for the expected shape, or
well-formed and parsing to a record. -/
inductive FileContent where
  | missing
  | malformed
  | record (t : StoredTokens)
deriving Repr, DecidableEq

/-- `loadTokens` (`src/auth.ts` lines 53-75).  If the environment token is
truthy, synthesize an in-memory record with a 24-hour assumed validity and
fixed scope.  Otherwise read the file: a read or parse failure is caught and
yields `none`; a parsed record with a falsy (empty) `access_token` yields
`none`; otherwise the parsed record. -/
def loadTokens (env : Env) (file : FileContent) (now : Int) : Option StoredTokens :=
  match env.staticToken with
  | some tok =>
      some { access_token := tok
             refresh_token := ""
             expires_at := now + 24 * 60 * 60 * 1000
             refresh_token_expires_at := 0
             scope := staticTokenScope }
  | none =>
      match file with
      | .missing => none
      | .malformed => none
      | .record t => if t.access_token = "" then none else some t

/-- Filesystem state relevant to `saveTokens`: the permission bits of the
credential directory and file (`none` = does not exist) and the file's
content.  Modes are the values requested from the OS; Node additionally
clears the process-umask bits on creation, which can only remove access. -/
structure FsState where
  dirMode : Option Nat
  fileMode : Option Nat
  file : FileContent
deriving Repr, DecidableEq

/-- `saveTokens` (`src/auth.ts` lines 77-84).  If the directory is missing it
is created by `fs.mkdirSync(dir, { recursive: true })`, which passes no mode,
so Node requests its default mode `0o777`.  The record is written with
`fs.writeFileSync(..., { mode: 0o600 })`; `open(2)` applies the mode only
when the file is created, so an existing file keeps its previous bits. -/
def saveTokens (fs : FsState) (t : StoredTokens) : FsState :=
  { dirMode :=
      match fs.dirMode with
      | none => some 0o777
      | some m => some m
    fileMode :=
      match fs.fileMode with
      | none => some 0o600
      | some m => some m
    file := .record t }

/-- The errors `getValidAccessToken` and `refreshAccessToken` can throw on
the token-serving path (`src/auth.ts` lines 248-328). -/
inductive AuthError where
  | notAuthenticated
  | accessExpiredNoRefreshToken
  | refreshTokenExpired
  | noRefreshTokenAvailable
  | refreshFailed (status : Nat) (body : String)
deriving Repr, DecidableEq

/-- What the authorization server answered to the single refresh POST. -/
inductive RefreshOutcome where
  | httpError (status : Nat) (body : String)
  | success (data : OAuthTokenResponse)
deriving Repr, DecidableEq

/-- JavaScript truthiness of an optional number: absent, `null`, `0` (and
`NaN`, not representable here) are falsy. -/
def truthyNum : Option Int → Bool
  | none => false
  | some n => n != 0

/-- The record built on a successful refresh (`src/auth.ts` lines 277-285):
`refresh_token` and `scope` fall back with `??` (nullish coalescing, so a
present empty string is kept), while `refresh_token_expires_at` falls back
on truthiness (so a present `0` is replaced by the old value). -/
def refreshedTokens (tokens : StoredTokens) (data : OAuthTokenResponse) (now : Int) :
    StoredTokens :=
  { access_token := data.access_token
    refresh_token := data.refresh_token.getD tokens.refresh_token
    expires_at := now + data.expires_in * 1000
    refresh_token_expires_at :=
      if truthyNum data.refresh_token_expires_at then
        (data.refresh_token_expires_at.getD 0) * 1000
      else tokens.refresh_token_expires_at
    scope := data.scope.getD tokens.scope }

deriving instance DecidableEq for Except

/-- Result of `refreshAccessToken`, with its observable effects: how many
network fetches it issued and which records it persisted (in order). -/
structure RefreshResult where
  result : Except AuthError StoredTokens
  fetchCalls : Nat
  saved : List StoredTokens
deriving Repr, DecidableEq

/-- `refreshAccessToken` (`src/auth.ts` lines 248-290).  Reloads the stored
tokens; a missing record or a falsy (empty) `refresh_token` throws before
any fetch.  Otherwise one fetch is issued; a non-2xx response throws, and a
success builds `refreshedTokens`, persists it and returns it. -/
def refreshAccessToken (env : Env) (file : FileContent) (now : Int)
    (outcome : RefreshOutcome) : RefreshResult :=
  match loadTokens env file now with
  | none => ⟨.error .noRefreshTokenAvailable, 0, []⟩
  | some tokens =>
      if tokens.refresh_token = "" then ⟨.error .noRefreshTokenAvailable, 0, []⟩
      else
        match outcome with
        | .httpError status body => ⟨.error (.refreshFailed status body), 1, []⟩
        | .success data =>
            let newTokens := refreshedTokens tokens data now
            ⟨.ok newTokens, 1, [newTokens]⟩

/-- Result of `getValidAccessToken`, with its observable effects. -/
structure TokenResult where
  result : Except AuthError String
  fetchCalls : Nat
  saved : List StoredTokens
deriving Repr, DecidableEq

/-- `getValidAccessToken` (`src/auth.ts` lines 298-328).  A truthy
environment token is returned immediately; an absent record fails; an access
token whose expiry is more than the buffer in the future is returned as-is;
then a falsy refresh token, then an expired refresh token fail; otherwise
the refresh path runs. -/
def getValidAccessToken (env : Env) (file : FileContent) (now : Int)
    (outcome : RefreshOutcome) : TokenResult :=
  match env.staticToken with
  | some tok => ⟨.ok tok, 0, []⟩
  | none =>
      match loadTokens env file now with
      | none => ⟨.error .notAuthenticated, 0, []⟩
      | some tokens =>
          if tokens.expires_at > now + TOKEN_EXPIRY_BUFFER_MS then
            ⟨.ok tokens.access_token, 0, []⟩
          else if tokens.refresh_token = "" then
            ⟨.error .accessExpiredNoRefreshToken, 0, []⟩
          else if tokens.refresh_token_expires_at < now then
            ⟨.error .refreshTokenExpired, 0, []⟩
          else
            let r := refreshAccessToken env file now outcome
            match r.result with
            | .error e => ⟨.error e, r.fetchCalls, r.saved⟩
            | .ok newTokens => ⟨.ok newTokens.access_token, r.fetchCalls, r.saved⟩

/-- The steps of `startOAuthFlow` (`src/auth.ts` lines 213-244) in execution
order.  `listenerReady` marks the point inside `waitForAuthorizationCode`
where `server.listen(OAUTH_CALLBACK_PORT, ...)` has returned: Node performs
the bind/listen system calls synchronously inside that call (only the
`listening` event is deferred), so the OS accepts connections from then on.
`browserLaunch` marks the `await open(authUrl.toString())` call. -/
inductive FlowEvent where
  | generateState
  | buildAuthUrl
  | createCallbackServer
  | listenerReady
  | browserLaunch
  | awaitCallback
  | exchangeCode
  | saveRecord
deriving Repr, DecidableEq

/-- The deterministic head every run of `startOAuthFlow` executes before the
first suspension point: generate `state` (line 214), build the authorization
URL (lines 216-222), call `waitForAuthorizationCode` — whose promise
executor synchronously creates the callback server (line 95) and calls
`server.listen` (line 157) — and only then `await open(...)` (line 231). -/
def startOAuthFlowHead : List FlowEvent :=
  [.generateState, .buildAuthUrl, .createCallbackServer, .listenerReady, .browserLaunch]

/-- A full run of `startOAuthFlow`: the deterministic head followed by the
events of the particular run (callback handling, code exchange, save — or an
error path), which vary with the callback received. -/
def startOAuthFlowTrace (rest : List FlowEvent) : List FlowEvent :=
  startOAuthFlowHead ++ rest

/-- The Credential Store `load` contract as the spec states it (section 4.1,
with no static token configured): missing, unreadable or malformed content,
or a missing/empty `access_token`, yield absent; otherwise the parsed
record.  Stated from the spec's words, to be compared with `loadTokens`. -/
def loadContractSpec : FileContent → Option StoredTokens
  | .missing => none
  | .malformed => none
  | .record t => if t.access_token = "" then none else some t

/-!  Theorems about the claims. -/

/-- Claim C1: for every stored credential record whose `expires_at` is more
than the 60-second buffer in the future (and no static token configured),
`getValidAccessToken` returns the cached `access_token` unchanged, performs
no network call and no store write. -/
theorem c1_fast_path_returns_cached_token (t : StoredTokens) (now : Int)
    (outcome : RefreshOutcome) (haccess : t.access_token ≠ "")
    (hfresh : t.expires_at > now + TOKEN_EXPIRY_BUFFER_MS) :
    getValidAccessToken ⟨none⟩ (.record t) now outcome = ⟨.ok t.access_token, 0, []⟩ := by
  simp [getValidAccessToken, Env.staticToken, loadTokens, haccess, hfresh]

/-- Witness for C1 at a concrete record and time. -/
theorem c1_fast_path_returns_cached_token_witness :
    (("A" : String) ≠ "" ∧ (100000000 : Int) > 0 + TOKEN_EXPIRY_BUFFER_MS) ∧
    getValidAccessToken ⟨none⟩ (.record ⟨"A", "R", 100000000, 0, "sc"⟩) 0
        (.httpError 500 "boom") = ⟨.ok "A", 0, []⟩ :=
  ⟨⟨by decide, by decide⟩,
   c1_fast_path_returns_cached_token ⟨"A", "R", 100000000, 0, "sc"⟩ 0
     (.httpError 500 "boom") (by decide) (by decide)⟩

/-- Claim C2: for the record `{access_token:"A", refresh_token:"R",
expires_at: now-1000, refresh_token_expires_at: now+1e9}` and a successful
refresh answering `{access_token:"B", expires_in:3600}` with every optional
field omitted, `getValidAccessToken` issues exactly one refresh call,
persists `{access_token:"B", refresh_token:"R", expires_at: now+3600000}`
with refresh expiry and scope carried forward, and returns `"B"`. -/
theorem c2_refresh_success_scenario (now : Int) (scope : String) :
    getValidAccessToken ⟨none⟩
        (.record ⟨"A", "R", now - 1000, now + 1000000000, scope⟩) now
        (.success ⟨"B", none, 3600, none, none⟩) =
      ⟨.ok "B", 1, [⟨"B", "R", now + 3600000, now + 1000000000, scope⟩]⟩ := by
  have h1 : ¬ (now - 1000 > now + TOKEN_EXPIRY_BUFFER_MS) := by
    simp [TOKEN_EXPIRY_BUFFER_MS]
    omega
  have h2 : ¬ (now + 1000000000 < now) := by omega
  simp [getValidAccessToken, Env.staticToken, loadTokens, refreshAccessToken,
        refreshedTokens, truthyNum, h1, h2]

/-- Claim C3: for every stored record whose access token is not fresh beyond
the buffer, whose refresh token is non-empty and whose refresh expiry lies
strictly in the past, `getValidAccessToken` fails with the
refresh-token-expired error, with no network call and no store write. -/
theorem c3_refresh_expired_fails_without_network (t : StoredTokens) (now : Int)
    (outcome : RefreshOutcome) (haccess : t.access_token ≠ "")
    (hstale : ¬ t.expires_at > now + TOKEN_EXPIRY_BUFFER_MS)
    (hrt : t.refresh_token ≠ "") (hexp : t.refresh_token_expires_at < now) :
    getValidAccessToken ⟨none⟩ (.record t) now outcome =
      ⟨.error .refreshTokenExpired, 0, []⟩ := by
  simp [getValidAccessToken, Env.staticToken, loadTokens, haccess, hstale, hrt, hexp]

/-- Witness for C3 at a concrete record and time. -/
theorem c3_refresh_expired_fails_without_network_witness :
    (("A" : String) ≠ "" ∧ ¬ (5 : Int) > 100 + TOKEN_EXPIRY_BUFFER_MS ∧
      ("R" : String) ≠ "" ∧ (10 : Int) < 100) ∧
    getValidAccessToken ⟨none⟩ (.record ⟨"A", "R", 5, 10, "sc"⟩) 100
        (.success ⟨"B", none, 3600, none, none⟩) =
      ⟨.error .refreshTokenExpired, 0, []⟩ :=
  ⟨⟨by decide, by decide, by decide, by decide⟩,
   c3_refresh_expired_fails_without_network ⟨"A", "R", 5, 10, "sc"⟩ 100
     (.success ⟨"B", none, 3600, none, none⟩) (by decide) (by decide) (by decide) (by decide)⟩

/-- Claim C4: with a truthy static token in the environment,
`getValidAccessToken` returns exactly that string with no fetch and no save,
and its result is independent of the on-disk store state, the time and the
server's answer. -/
theorem c4_static_token_mode (tok : String) (htok : tok ≠ "") (f1 f2 : FileContent)
    (n1 n2 : Int) (o1 o2 : RefreshOutcome) :
    getValidAccessToken ⟨some tok⟩ f1 n1 o1 = ⟨.ok tok, 0, []⟩ ∧
    getValidAccessToken ⟨some tok⟩ f1 n1 o1 = getValidAccessToken ⟨some tok⟩ f2 n2 o2 := by
  constructor <;> simp [getValidAccessToken, Env.staticToken, htok]

/-- Witness for C4 at two concrete store states. -/
theorem c4_static_token_mode_witness :
    (("STATIC" : String) ≠ "") ∧
    getValidAccessToken ⟨some "STATIC"⟩ .missing 0 (.httpError 500 "x") =
      ⟨.ok "STATIC", 0, []⟩ ∧
    getValidAccessToken ⟨some "STATIC"⟩ .missing 0 (.httpError 500 "x") =
      getValidAccessToken ⟨some "STATIC"⟩ (.record ⟨"A", "R", 0, 0, "sc"⟩) 999
        (.success ⟨"B", none, 1, none, none⟩) :=
  ⟨by decide,
   (c4_static_token_mode "STATIC" (by decide) .missing (.record ⟨"A", "R", 0, 0, "sc"⟩)
      0 999 (.httpError 500 "x") (.success ⟨"B", none, 1, none, none⟩)).1,
   (c4_static_token_mode "STATIC" (by decide) .missing (.record ⟨"A", "R", 0, 0, "sc"⟩)
      0 999 (.httpError 500 "x") (.success ⟨"B", none, 1, none, none⟩)).2⟩

/-- Counterexample for claim C5: a record with an expired access token, a
non-empty refresh token and `refresh_token_expires_at = 0` makes
`getValidAccessToken` fail with exactly the refresh-token-expired error (at
time 1000000), contradicting the claim that the 0 sentinel avoids it. -/
theorem c5_zero_sentinel_counterexample :
    getValidAccessToken ⟨none⟩ (.record ⟨"A", "R", 0, 0, "sc"⟩) 1000000
        (.success ⟨"B", none, 3600, none, none⟩) =
      ⟨.error .refreshTokenExpired, 0, []⟩ := rfl

/-- Amended claim C5: `refresh_token_expires_at = 0` is compared as an
ordinary past timestamp, not preserved as an "unknown" sentinel: for every
record with an expired access token, a non-empty refresh token and refresh
expiry 0, at any positive time `getValidAccessToken` fails with the
refresh-token-expired error and issues no network call.  (The sentinel is
benign only in synthesized static-token records, whose empty refresh token
short-circuits earlier.) -/
theorem c5_amended_zero_refresh_expiry_fails (t : StoredTokens) (now : Int)
    (outcome : RefreshOutcome) (haccess : t.access_token ≠ "")
    (hstale : ¬ t.expires_at > now + TOKEN_EXPIRY_BUFFER_MS)
    (hrt : t.refresh_token ≠ "") (hzero : t.refresh_token_expires_at = 0)
    (hnow : 0 < now) :
    getValidAccessToken ⟨none⟩ (.record t) now outcome =
      ⟨.error .refreshTokenExpired, 0, []⟩ := by
  have hexp : t.refresh_token_expires_at < now := by omega
  simp [getValidAccessToken, Env.staticToken, loadTokens, haccess, hstale, hrt, hexp]

/-- Witness for the amended C5 at a concrete record and time. -/
theorem c5_amended_zero_refresh_expiry_fails_witness :
    (("A" : String) ≠ "" ∧ ¬ (-5 : Int) > 7 + TOKEN_EXPIRY_BUFFER_MS ∧
      ("R" : String) ≠ "" ∧ (0 : Int) < 7) ∧
    getValidAccessToken ⟨none⟩ (.record ⟨"A", "R", -5, 0, "sc"⟩) 7
        (.httpError 500 "x") = ⟨.error .refreshTokenExpired, 0, []⟩ :=
  ⟨⟨by decide, by decide, by decide, by decide⟩,
   c5_amended_zero_refresh_expiry_fails ⟨"A", "R", -5, 0, "sc"⟩ 7 (.httpError 500 "x")
     (by decide) (by decide) (by decide) (by decide) (by decide)⟩

/-- Claim C6: saving a structurally complete record (non-empty
`access_token`, no static token configured) and loading it back yields the
same record, field for field. -/
theorem c6_save_load_round_trip (fs : FsState) (t : StoredTokens) (now : Int)
    (haccess : t.access_token ≠ "") :
    loadTokens ⟨none⟩ (saveTokens fs t).file now = some t := by
  simp [loadTokens, Env.staticToken, saveTokens, haccess]

/-- Witness for C6 at a concrete record. -/
theorem c6_save_load_round_trip_witness :
    (("A" : String) ≠ "") ∧
    loadTokens ⟨none⟩ (saveTokens ⟨none, none, .missing⟩ ⟨"A", "R", 1, 2, "sc"⟩).file 5 =
      some ⟨"A", "R", 1, 2, "sc"⟩ :=
  ⟨by decide, c6_save_load_round_trip ⟨none, none, .missing⟩ ⟨"A", "R", 1, 2, "sc"⟩ 5 (by decide)⟩

/-- Claim C7: with no static token configured, `loadTokens` never raises and
behaves exactly as the store contract states: missing, unreadable or
malformed content, or a record with an empty `access_token`, yield `none`;
otherwise the parsed record is returned. -/
theorem c7_load_matches_contract (file : FileContent) (now : Int) :
    loadTokens ⟨none⟩ file now = loadContractSpec file := by
  cases file <;> simp [loadTokens, Env.staticToken, loadContractSpec]

/-- Counterexample for claim C8: on a save with the credential directory
missing, the directory is created with Node's default requested mode
`0o777`, whose group/other bits (`0o077`) are set — not owner-only
traversal rights. -/
theorem c8_dir_mode_counterexample :
    (saveTokens ⟨none, none, .missing⟩ ⟨"A", "R", 0, 0, "sc"⟩).dirMode = some 0o777 ∧
    0o777 &&& 0o077 ≠ 0 := by decide

/-- Amended claim C8: on every save the record is written; a missing
directory is created with Node's default mode `0o777` (before umask), which
is not owner-only; the credential file, when newly created, gets mode
`0o600` — owner read/write only, no group/other bits; a pre-existing file
keeps its previous mode. -/
theorem c8_amended_save_modes (fs : FsState) (t : StoredTokens) :
    (saveTokens fs t).file = FileContent.record t ∧
    (fs.dirMode = none → (saveTokens fs t).dirMode = some 0o777) ∧
    (fs.fileMode = none →
      (saveTokens fs t).fileMode = some 0o600 ∧ 0o600 &&& 0o077 = 0) ∧
    (∀ m, fs.fileMode = some m → (saveTokens fs t).fileMode = some m) := by
  refine ⟨rfl, ?_, ?_, ?_⟩
  · intro h
    simp [saveTokens, h]
  · intro h
    exact ⟨by simp [saveTokens, h], by decide⟩
  · intro m h
    simp [saveTokens, h]

/-- Witness for the amended C8 at a concrete state with a missing directory
and a pre-existing file of mode `0o644`. -/
theorem c8_amended_save_modes_witness :
    (saveTokens ⟨none, some 0o644, .malformed⟩ ⟨"A", "R", 0, 0, "sc"⟩).dirMode = some 0o777 ∧
    (saveTokens ⟨none, some 0o644, .malformed⟩ ⟨"A", "R", 0, 0, "sc"⟩).fileMode = some 0o644 :=
  ⟨(c8_amended_save_modes ⟨none, some 0o644, .malformed⟩ ⟨"A", "R", 0, 0, "sc"⟩).2.1 rfl,
   (c8_amended_save_modes ⟨none, some 0o644, .malformed⟩ ⟨"A", "R", 0, 0, "sc"⟩).2.2.2 0o644 rfl⟩

/-- Claim C9: in every run of `startOAuthFlow`, the callback listener is
ready to accept connections strictly before the browser is launched: in the
run's event trace, `listenerReady` occurs before `browserLaunch`, whatever
happens afterwards. -/
theorem c9_listener_ready_before_browser (rest : List FlowEvent) :
    (startOAuthFlowTrace rest).indexOf FlowEvent.listenerReady <
      (startOAuthFlowTrace rest).indexOf FlowEvent.browserLaunch := by
  show (3 : Nat) < 4
  decide

/-- Claim C10: the refresh path's two carry-forward rules are asymmetric: a
server-sent empty-string `refresh_token` is stored as the empty string (the
old one is kept only when the field is absent), while a `0`
`refresh_token_expires_at` is carried forward from the old record; a record
refreshed from such a response is non-refreshable at the next expiry —
`getValidAccessToken` then fails with the no-refresh-token error before any
network call. -/
theorem c10_empty_refresh_token_stored_zero_expiry_carried (old : StoredTokens)
    (data : OAuthTokenResponse) (now now2 : Int) (outcome2 : RefreshOutcome)
    (hrt : data.refresh_token = some "") (hexp : data.refresh_token_expires_at = some 0)
    (haccess : data.access_token ≠ "")
    (hstale : ¬ (refreshedTokens old data now).expires_at > now2 + TOKEN_EXPIRY_BUFFER_MS) :
    (refreshedTokens old data now).refresh_token = "" ∧
    (refreshedTokens old data now).refresh_token_expires_at = old.refresh_token_expires_at ∧
    getValidAccessToken ⟨none⟩ (.record (refreshedTokens old data now)) now2 outcome2 =
      ⟨.error .accessExpiredNoRefreshToken, 0, []⟩ := by
  have h1 : (refreshedTokens old data now).refresh_token = "" := by
    simp [refreshedTokens, hrt]
  have h2 : (refreshedTokens old data now).refresh_token_expires_at =
      old.refresh_token_expires_at := by
    simp [refreshedTokens, hexp, truthyNum]
  have h3 : (refreshedTokens old data now).access_token ≠ "" := by
    simpa [refreshedTokens] using haccess
  refine ⟨h1, h2, ?_⟩
  simp [getValidAccessToken, Env.staticToken, loadTokens, h3, hstale, h1]

/-- Witness for C10 at a concrete refresh response with a present-but-empty
refresh token and a present-but-zero refresh expiry. -/
theorem c10_empty_refresh_token_stored_zero_expiry_carried_witness :
    (refreshedTokens ⟨"A", "R", 0, 777, "sc"⟩ ⟨"B", some "", 3600, some 0, none⟩ 0).refresh_token
        = "" ∧
    (refreshedTokens ⟨"A", "R", 0, 777, "sc"⟩
        ⟨"B", some "", 3600, some 0, none⟩ 0).refresh_token_expires_at = 777 ∧
    getValidAccessToken ⟨none⟩
        (.record (refreshedTokens ⟨"A", "R", 0, 777, "sc"⟩ ⟨"B", some "", 3600, some 0, none⟩ 0))
        100000000 (.httpError 500 "x") =
      ⟨.error .accessExpiredNoRefreshToken, 0, []⟩ :=
  c10_empty_refresh_token_stored_zero_expiry_carried ⟨"A", "R", 0, 777, "sc"⟩
    ⟨"B", some "", 3600, some 0, none⟩ 0 100000000 (.httpError 500 "x")
    rfl rfl (by decide) (by decide)

end PinterestAuth
